import Mathlib

/-!
Shallow embedding of the `dex_ai` Anchor program
(src/programs/dex-ai/src/lib.rs): a two-asset constant-product AMM with
an `initialize_pool` instruction, a `swap` instruction, and the helper
`compute_constant_product_quote`.

Modelling choices:
* `u64` values are `Nat`; Rust's `saturating_mul` / `saturating_add`
  become `min (x * y) U64_MAX` / `min (x + y) U64_MAX`.
* The u64 subtraction `10_000u64 - fee_bps as u64` (lib.rs line 118)
  agrees with truncated `Nat` subtraction on the fee range 0..10_000
  declared by the spec (§3: basis points 0–10,000); for larger
  `fee_bps` the Rust expression underflows, so every theorem below that
  depends on the fee stays inside `fee_bps ≤ 10_000`.
* `Pubkey` is an abstract identifier, modelled as `Nat`.
* The two token CPI calls of `swap` are modelled as the list of
  `Transfer` records the instruction issues, in program order; the
  surrounding runtime applies them (or none, on error) atomically.
-/

/-- Largest representable `u64` value. -/
def U64_MAX : Nat := 2 ^ 64 - 1

/-- Rust `u64::saturating_mul` on values below `2^64`. -/
def satMul (a b : Nat) : Nat := min (a * b) U64_MAX

/-- Rust `u64::saturating_add` on values below `2^64`. -/
def satAdd (a b : Nat) : Nat := min (a + b) U64_MAX

/-- The error enum `DexError` (lib.rs lines 109-114), in source order. -/
inductive DexError where
  | InvalidAmount
  | SlippageExceeded
  | InvalidAccount
deriving DecidableEq, Repr

/-- `amount_in.saturating_mul(10_000u64 - fee_bps as u64) / 10_000u64`
(lib.rs line 118). -/
def after_fee (amount_in fee_bps : Nat) : Nat :=
  satMul amount_in (10000 - fee_bps) / 10000

/-- The quotient `numerator / denominator` of lib.rs lines 119-121:
`numerator = amount_in_after_fee.saturating_mul(reserve_out)`,
`denominator = reserve_in.saturating_add(amount_in_after_fee)`. -/
def rawQuote (amount_in reserve_in reserve_out fee_bps : Nat) : Nat :=
  satMul (after_fee amount_in fee_bps) reserve_out /
    satAdd reserve_in (after_fee amount_in fee_bps)

/-- `compute_constant_product_quote` (lib.rs lines 116-122): the
reserve positivity `require!` guards the arithmetic of `rawQuote`. -/
def compute_constant_product_quote
    (amount_in reserve_in reserve_out fee_bps : Nat) : Except DexError Nat :=
  if reserve_in > 0 ∧ reserve_out > 0 then
    Except.ok (rawQuote amount_in reserve_in reserve_out fee_bps)
  else
    Except.error DexError.InvalidAmount

/-- The quote formula exactly as the spec words it (§4.2 and §8):
`amount_in_after_fee = floor(amount_in * (10_000 - fee_bps) / 10_000)`,
`output = floor(amount_in_after_fee * reserve_out / (reserve_in + amount_in_after_fee))`,
with multiplication and addition saturating at the maximum
representable value. Written from the spec, to be compared with the
source-derived `rawQuote`. -/
def quoteSpec (amount_in reserve_in reserve_out fee_bps : Nat) : Nat :=
  let aif := min (amount_in * (10000 - fee_bps)) U64_MAX / 10000
  min (aif * reserve_out) U64_MAX / min (reserve_in + aif) U64_MAX

/-- The `Pool` account (lib.rs lines 57-65). -/
structure Pool where
  authority : Nat
  mint_a : Nat
  mint_b : Nat
  vault_a : Nat
  vault_b : Nat
  fee_bps : Nat
deriving DecidableEq, Repr

/-- An SPL token account as the program reads it: its mint and its
current balance (`amount`). -/
structure TokenAccount where
  mint : Nat
  amount : Nat
deriving DecidableEq, Repr

/-- The accounts a `swap` call touches (the `Swap` accounts struct,
lib.rs lines 86-101). -/
structure SwapAccounts where
  pool : Pool
  vault_a : TokenAccount
  vault_b : TokenAccount
  user_source : TokenAccount
  user_destination : TokenAccount
deriving DecidableEq, Repr

/-- Labels for the four balance-carrying accounts of one swap call. -/
inductive AccountId where
  | userSource
  | userDestination
  | vaultA
  | vaultB
deriving DecidableEq, Repr

/-- One CPI `token::transfer` request: source, destination, amount. -/
structure Transfer where
  src : AccountId
  dst : AccountId
  amount : Nat
deriving DecidableEq, Repr

/-- `let is_a_to_b = ctx.accounts.user_source.mint == pool.mint_a`
(lib.rs line 26). -/
def direction (accs : SwapAccounts) : Bool :=
  accs.user_source.mint == accs.pool.mint_a

/-- `if is_a_to_b { pool.mint_b } else { pool.mint_a }` (lib.rs line 29):
the inferred output mint the user destination account must hold. -/
def outMint (accs : SwapAccounts) : Nat :=
  if direction accs then accs.pool.mint_b else accs.pool.mint_a

/-- Balance of the source-side vault, `src_vault.amount`
(lib.rs line 31 selects `vault_a` for A→B, `vault_b` for B→A). -/
def srcReserve (accs : SwapAccounts) : Nat :=
  if direction accs then accs.vault_a.amount else accs.vault_b.amount

/-- Balance of the destination-side vault, `dst_vault.amount`
(lib.rs line 31 selects `vault_b` for A→B, `vault_a` for B→A). -/
def dstReserve (accs : SwapAccounts) : Nat :=
  if direction accs then accs.vault_b.amount else accs.vault_a.amount

/-- Label of the source-side vault selected on lib.rs line 31. -/
def srcVaultId (accs : SwapAccounts) : AccountId :=
  if direction accs then AccountId.vaultA else AccountId.vaultB

/-- Label of the destination-side vault selected on lib.rs line 31. -/
def dstVaultId (accs : SwapAccounts) : AccountId :=
  if direction accs then AccountId.vaultB else AccountId.vaultA

/-- The `swap` instruction handler (lib.rs lines 21-54), in source
order: the `amount_in > 0` require, the two vault mint requires, the
destination mint require, the quote (with `?` propagation), the
slippage require, then the two transfers (user→source-vault of
`amount_in`, destination-vault→user of `quote_out`). -/
def swap (accs : SwapAccounts) (amount_in min_amount_out : Nat) :
    Except DexError (List Transfer) :=
  if amount_in > 0 then
    if accs.vault_a.mint = accs.pool.mint_a then
      if accs.vault_b.mint = accs.pool.mint_b then
        if accs.user_destination.mint = outMint accs then
          match compute_constant_product_quote amount_in (srcReserve accs)
              (dstReserve accs) accs.pool.fee_bps with
          | Except.error e => Except.error e
          | Except.ok quote_out =>
            if quote_out ≥ min_amount_out then
              Except.ok
                [{ src := AccountId.userSource, dst := srcVaultId accs,
                   amount := amount_in },
                 { src := dstVaultId accs, dst := AccountId.userDestination,
                   amount := quote_out }]
            else Except.error DexError.SlippageExceeded
        else Except.error DexError.InvalidAccount
      else Except.error DexError.InvalidAccount
    else Except.error DexError.InvalidAccount
  else Except.error DexError.InvalidAmount

/-- `initialize_pool` (lib.rs lines 10-19): stores the caller-supplied
values verbatim, with no validation of any field. -/
def init_pool (authority mint_a mint_b vault_a vault_b fee_bps : Nat) : Pool :=
  { authority := authority, mint_a := mint_a, mint_b := mint_b,
    vault_a := vault_a, vault_b := vault_b, fee_bps := fee_bps }

/-- The pre-call balances of the four accounts. -/
def accountAmount (accs : SwapAccounts) : AccountId → Nat
  | AccountId.userSource => accs.user_source.amount
  | AccountId.userDestination => accs.user_destination.amount
  | AccountId.vaultA => accs.vault_a.amount
  | AccountId.vaultB => accs.vault_b.amount

/-- Effect of one token transfer on the balance map. -/
def applyTransfer (bal : AccountId → Nat) (t : Transfer) : AccountId → Nat :=
  fun i =>
    if i = t.src then bal i - t.amount
    else if i = t.dst then bal i + t.amount
    else bal i

/-- Effect of a sequence of transfers, applied in order. -/
def applyTransfers (bal : AccountId → Nat) (ts : List Transfer) :
    AccountId → Nat :=
  ts.foldl applyTransfer bal

/-- The transfers a swap call issues: the returned pair on success,
none on any rejection (the runtime applies nothing on error). -/
def issuedTransfers (accs : SwapAccounts) (amount_in min_amount_out : Nat) :
    List Transfer :=
  match swap accs amount_in min_amount_out with
  | Except.ok ts => ts
  | Except.error _ => []

/-- Post-call balances: the issued transfers applied to the pre-call
balances. -/
def finalBalances (accs : SwapAccounts) (amount_in min_amount_out : Nat) :
    AccountId → Nat :=
  applyTransfers (accountAmount accs) (issuedTransfers accs amount_in min_amount_out)

/-! ### Arithmetic helpers -/

/-- Cross-multiplied comparison of natural-number floor divisions. -/
lemma div_le_div_cross {A B C D : Nat} (hB : 0 < B) (hD : 0 < D)
    (h : A * D ≤ C * B) : A / B ≤ C / D := by
  rw [Nat.le_div_iff_mul_le hD]
  calc A / B * D ≤ A * D / B := by
        rw [Nat.le_div_iff_mul_le hB, mul_right_comm]
        exact Nat.mul_le_mul_right D (Nat.div_mul_le_self A B)
    _ ≤ C * B / B := Nat.div_le_div_right h
    _ = C := Nat.mul_div_cancel C hB

/-- `after_fee` never exceeds `U64_MAX / 10000`. -/
lemma after_fee_le (amount_in fee_bps : Nat) :
    after_fee amount_in fee_bps ≤ U64_MAX / 10000 :=
  Nat.div_le_div_right (min_le_right _ _)

/-- `after_fee` is monotone in the input amount. -/
lemma after_fee_mono {a1 a2 : Nat} (fee_bps : Nat) (h : a1 ≤ a2) :
    after_fee a1 fee_bps ≤ after_fee a2 fee_bps :=
  Nat.div_le_div_right (min_le_min (Nat.mul_le_mul_right _ h) le_rfl)

/-- The saturating denominator of the quote is positive whenever the
input-side reserve is. -/
lemma satAdd_pos {reserve_in : Nat} (x : Nat) (h : 0 < reserve_in) :
    0 < satAdd reserve_in x := by
  unfold satAdd U64_MAX
  exact lt_min_iff.mpr ⟨by omega, by norm_num⟩

/-- The computed quote is strictly below the output-side reserve, with
or without saturation. -/
lemma rawQuote_lt_reserve_out (amount_in reserve_in reserve_out fee_bps : Nat)
    (hin : 0 < reserve_in) (hout : 0 < reserve_out) :
    rawQuote amount_in reserve_in reserve_out fee_bps < reserve_out := by
  unfold rawQuote
  set x := after_fee amount_in fee_bps with hx
  have hxle : x ≤ U64_MAX / 10000 := after_fee_le amount_in fee_bps
  have hden : 0 < satAdd reserve_in x := satAdd_pos x hin
  rw [Nat.div_lt_iff_lt_mul hden]
  by_cases hsum : reserve_in + x ≤ U64_MAX
  · have h1 : satAdd reserve_in x = reserve_in + x := min_eq_left hsum
    rw [h1]
    refine lt_of_le_of_lt (min_le_left _ _) ?_
    calc x * reserve_out
        < reserve_in * reserve_out + x * reserve_out :=
          Nat.lt_add_of_pos_left (Nat.mul_pos hin hout)
      _ = reserve_out * (reserve_in + x) := by ring
  · have h1 : satAdd reserve_in x = U64_MAX := min_eq_right (by omega)
    rw [h1]
    rcases Nat.lt_or_ge reserve_out 2 with h2 | h2
    · have hr1 : reserve_out = 1 := by omega
      subst hr1
      have hs : satMul x 1 = x := by
        unfold satMul
        rw [mul_one]
        exact min_eq_left (le_trans hxle (Nat.div_le_self _ _))
      rw [hs, one_mul]
      refine lt_of_le_of_lt hxle ?_
      exact Nat.div_lt_self (by norm_num [U64_MAX]) (by norm_num)
    · refine lt_of_le_of_lt (min_le_right _ _) ?_
      exact (lt_mul_iff_one_lt_left (by norm_num [U64_MAX])).mpr h2

/-- The quote times its denominator never exceeds its numerator. -/
lemma rawQuote_mul_le (amount_in reserve_in reserve_out fee_bps : Nat) :
    rawQuote amount_in reserve_in reserve_out fee_bps *
      satAdd reserve_in (after_fee amount_in fee_bps) ≤
    satMul (after_fee amount_in fee_bps) reserve_out := by
  unfold rawQuote
  exact Nat.div_mul_le_self _ _

/-! ### Unfolding lemmas for `swap` -/

/-- A zero input amount fails the first `require!`. -/
lemma swap_amount_zero (accs : SwapAccounts) (min_amount_out : Nat) :
    swap accs 0 min_amount_out = Except.error DexError.InvalidAmount := by
  simp [swap]

/-- A `vault_a` mint mismatch fails the second `require!`. -/
lemma swap_bad_vault_a (accs : SwapAccounts) {amount_in : Nat}
    (min_amount_out : Nat) (ha : 0 < amount_in)
    (h : accs.vault_a.mint ≠ accs.pool.mint_a) :
    swap accs amount_in min_amount_out = Except.error DexError.InvalidAccount := by
  unfold swap
  rw [if_pos ha, if_neg h]

/-- A `vault_b` mint mismatch fails the third `require!`. -/
lemma swap_bad_vault_b (accs : SwapAccounts) {amount_in : Nat}
    (min_amount_out : Nat) (ha : 0 < amount_in)
    (hva : accs.vault_a.mint = accs.pool.mint_a)
    (h : accs.vault_b.mint ≠ accs.pool.mint_b) :
    swap accs amount_in min_amount_out = Except.error DexError.InvalidAccount := by
  unfold swap
  rw [if_pos ha, if_pos hva, if_neg h]

/-- A destination mint that differs from the inferred output mint fails
the fourth `require!`. -/
lemma swap_bad_dest (accs : SwapAccounts) {amount_in : Nat}
    (min_amount_out : Nat) (ha : 0 < amount_in)
    (hva : accs.vault_a.mint = accs.pool.mint_a)
    (hvb : accs.vault_b.mint = accs.pool.mint_b)
    (h : accs.user_destination.mint ≠ outMint accs) :
    swap accs amount_in min_amount_out = Except.error DexError.InvalidAccount := by
  unfold swap
  rw [if_pos ha, if_pos hva, if_pos hvb, if_neg h]

/-- Once the four account checks pass, `swap` is the quote followed by
the slippage check followed by the two transfers. -/
lemma swap_of_valid (accs : SwapAccounts) {amount_in : Nat}
    (min_amount_out : Nat) (ha : 0 < amount_in)
    (hva : accs.vault_a.mint = accs.pool.mint_a)
    (hvb : accs.vault_b.mint = accs.pool.mint_b)
    (hdest : accs.user_destination.mint = outMint accs) :
    swap accs amount_in min_amount_out =
      match compute_constant_product_quote amount_in (srcReserve accs)
          (dstReserve accs) accs.pool.fee_bps with
      | Except.error e => Except.error e
      | Except.ok quote_out =>
        if quote_out ≥ min_amount_out then
          Except.ok
            [{ src := AccountId.userSource, dst := srcVaultId accs,
               amount := amount_in },
             { src := dstVaultId accs, dst := AccountId.userDestination,
               amount := quote_out }]
        else Except.error DexError.SlippageExceeded := by
  unfold swap
  rw [if_pos ha, if_pos hva, if_pos hvb, if_pos hdest]

/-- Every successful swap carries exactly the two transfers of
lib.rs lines 37-51, with the second amount equal to the quote. -/
lemma swap_ok_shape (accs : SwapAccounts) {amount_in min_amount_out : Nat}
    {ts : List Transfer} (h : swap accs amount_in min_amount_out = Except.ok ts) :
    0 < srcReserve accs ∧ 0 < dstReserve accs ∧
      ts = [{ src := AccountId.userSource, dst := srcVaultId accs,
              amount := amount_in },
            { src := dstVaultId accs, dst := AccountId.userDestination,
              amount := rawQuote amount_in (srcReserve accs) (dstReserve accs)
                accs.pool.fee_bps }] := by
  by_cases ha : 0 < amount_in
  · by_cases hva : accs.vault_a.mint = accs.pool.mint_a
    · by_cases hvb : accs.vault_b.mint = accs.pool.mint_b
      · by_cases hdest : accs.user_destination.mint = outMint accs
        · rw [swap_of_valid accs min_amount_out ha hva hvb hdest] at h
          unfold compute_constant_product_quote at h
          by_cases hres : srcReserve accs > 0 ∧ dstReserve accs > 0
          · rw [if_pos hres] at h
            have h2 : (if rawQuote amount_in (srcReserve accs) (dstReserve accs)
                  accs.pool.fee_bps ≥ min_amount_out then
                Except.ok
                  [{ src := AccountId.userSource, dst := srcVaultId accs,
                     amount := amount_in },
                   { src := dstVaultId accs, dst := AccountId.userDestination,
                     amount := rawQuote amount_in (srcReserve accs)
                       (dstReserve accs) accs.pool.fee_bps }]
              else Except.error DexError.SlippageExceeded) = Except.ok ts := h
            by_cases hs : rawQuote amount_in (srcReserve accs) (dstReserve accs)
                accs.pool.fee_bps ≥ min_amount_out
            · rw [if_pos hs] at h2
              exact ⟨hres.1, hres.2, ((Except.ok.injEq _ _).mp h2).symm⟩
            · rw [if_neg hs] at h2
              exact absurd h2 (by simp)
          · rw [if_neg hres] at h
            exact absurd h (by simp)
        · rw [swap_bad_dest accs min_amount_out ha hva hvb hdest] at h
          exact absurd h (by simp)
      · rw [swap_bad_vault_b accs min_amount_out ha hva hvb] at h
        exact absurd h (by simp)
    · rw [swap_bad_vault_a accs min_amount_out ha hva] at h
      exact absurd h (by simp)
  · have h0 : amount_in = 0 := by omega
    subst h0
    rw [swap_amount_zero] at h
    exact absurd h (by simp)

/-- The source-derived quote and the spec-worded formula coincide. -/
lemma rawQuote_eq_quoteSpec (amount_in reserve_in reserve_out fee_bps : Nat) :
    rawQuote amount_in reserve_in reserve_out fee_bps =
      quoteSpec amount_in reserve_in reserve_out fee_bps := rfl

/-! ### Concrete accounts used by witnesses -/

/-- A well-formed pool of the spec's §8 concrete scenario: mints 1 and 2,
both reserves 1_000_000, fee 30 bps; the user trades A→B. -/
def wAccs : SwapAccounts :=
  { pool := { authority := 0, mint_a := 1, mint_b := 2, vault_a := 10,
              vault_b := 11, fee_bps := 30 },
    vault_a := { mint := 1, amount := 1000000 },
    vault_b := { mint := 2, amount := 1000000 },
    user_source := { mint := 1, amount := 1000000 },
    user_destination := { mint := 2, amount := 0 } }

/-! ### Claims -/

/-- C1: for positive amount and reserves (and a fee in the declared
0–10_000 bps range), the computed quote is exactly
`floor(amount_in_after_fee * reserve_out / (reserve_in + amount_in_after_fee))`
with `amount_in_after_fee = floor(amount_in * (10_000 - fee_bps) / 10_000)`
under saturating multiplication and addition; a successful swap's second
transfer carries exactly that value; and the concrete scenario
`amount_in = 1000`, reserves `1_000_000`, fee `30` yields `996`. -/
theorem C1_quote_matches_formula :
    (∀ amount_in reserve_in reserve_out fee_bps : Nat,
      0 < amount_in → 0 < reserve_in → 0 < reserve_out → fee_bps ≤ 10000 →
      compute_constant_product_quote amount_in reserve_in reserve_out fee_bps =
        Except.ok (quoteSpec amount_in reserve_in reserve_out fee_bps))
    ∧ (∀ (accs : SwapAccounts) (amount_in min_amount_out : Nat)
        (ts : List Transfer),
        swap accs amount_in min_amount_out = Except.ok ts →
        ts.map Transfer.amount =
          [amount_in,
           quoteSpec amount_in (srcReserve accs) (dstReserve accs)
             accs.pool.fee_bps])
    ∧ compute_constant_product_quote 1000 1000000 1000000 30 =
        Except.ok 996 := by
  refine ⟨?_, ?_, rfl⟩
  · intro amount_in reserve_in reserve_out fee_bps _ hin hout _
    unfold compute_constant_product_quote
    rw [if_pos ⟨hin, hout⟩, rawQuote_eq_quoteSpec]
  · intro accs amount_in min_amount_out ts h
    obtain ⟨_, _, hts⟩ := swap_ok_shape accs h
    rw [hts]
    simp [rawQuote_eq_quoteSpec]

/-- C1 witness: the theorem applied to the spec's concrete scenario. -/
theorem C1_quote_matches_formula_witness :
    compute_constant_product_quote 1000 1000000 1000000 30 =
      Except.ok (quoteSpec 1000 1000000 1000000 30) ∧
    quoteSpec 1000 1000000 1000000 30 = 996 :=
  ⟨C1_quote_matches_formula.1 1000 1000000 1000000 30 (by decide) (by decide)
    (by decide) (by decide), by decide⟩

/-- C3: a rejected swap (any returned error) issues no transfer, so the
post-call balances of both vaults and both user accounts equal the
pre-call balances. -/
theorem C3_rejection_has_no_effects (accs : SwapAccounts)
    (amount_in min_amount_out : Nat) (e : DexError)
    (h : swap accs amount_in min_amount_out = Except.error e) :
    issuedTransfers accs amount_in min_amount_out = [] ∧
    ∀ i, finalBalances accs amount_in min_amount_out i = accountAmount accs i := by
  have ht : issuedTransfers accs amount_in min_amount_out = [] := by
    unfold issuedTransfers
    rw [h]
  refine ⟨ht, fun i => ?_⟩
  unfold finalBalances
  rw [ht]
  rfl

/-- C3 witness: a zero-amount rejection leaves the A-vault balance
untouched. -/
theorem C3_rejection_has_no_effects_witness :
    issuedTransfers wAccs 0 5 = [] ∧
    finalBalances wAccs 0 5 AccountId.vaultA = accountAmount wAccs AccountId.vaultA :=
  ⟨(C3_rejection_has_no_effects wAccs 0 5 DexError.InvalidAmount rfl).1,
   (C3_rejection_has_no_effects wAccs 0 5 DexError.InvalidAmount rfl).2 AccountId.vaultA⟩

/-- C5: `amount_in == 0` is rejected as `InvalidAmount` regardless of
everything else, and a positive-amount call that passes the account
checks is rejected as `InvalidAmount` whenever either selected reserve
is zero. -/
theorem C5_invalid_amount_rejections (accs : SwapAccounts)
    (amount_in min_amount_out : Nat) :
    (amount_in = 0 →
      swap accs amount_in min_amount_out = Except.error DexError.InvalidAmount)
    ∧ (0 < amount_in →
       accs.vault_a.mint = accs.pool.mint_a →
       accs.vault_b.mint = accs.pool.mint_b →
       accs.user_destination.mint = outMint accs →
       (srcReserve accs = 0 ∨ dstReserve accs = 0) →
       swap accs amount_in min_amount_out = Except.error DexError.InvalidAmount) := by
  constructor
  · intro h0
    subst h0
    exact swap_amount_zero accs min_amount_out
  · intro ha hva hvb hdest hres
    rw [swap_of_valid accs min_amount_out ha hva hvb hdest]
    unfold compute_constant_product_quote
    rw [if_neg (by rcases hres with h | h <;> omega)]

/-- C5 witness: an empty A-vault rejects a positive trade. -/
theorem C5_invalid_amount_rejections_witness :
    swap { wAccs with vault_a := { mint := 1, amount := 0 } } 1000 0 =
      Except.error DexError.InvalidAmount :=
  (C5_invalid_amount_rejections { wAccs with vault_a := { mint := 1, amount := 0 } }
      1000 0).2 (by decide) rfl rfl rfl (Or.inl rfl)

/-- C10: a quote that passes validation is strictly below the
destination-side reserve — even when the saturating multiplication or
addition saturates — so the pool-to-user transfer of a successful swap
never requests more than the destination vault holds. -/
theorem C10_output_bounded_by_vault :
    (∀ amount_in reserve_in reserve_out fee_bps q : Nat,
      0 < amount_in → fee_bps < 10000 →
      compute_constant_product_quote amount_in reserve_in reserve_out fee_bps =
        Except.ok q →
      q < reserve_out)
    ∧ (∀ (accs : SwapAccounts) (amount_in min_amount_out : Nat)
        (ts : List Transfer),
        swap accs amount_in min_amount_out = Except.ok ts →
        ∃ q, ts = [{ src := AccountId.userSource, dst := srcVaultId accs,
                     amount := amount_in },
                   { src := dstVaultId accs, dst := AccountId.userDestination,
                     amount := q }] ∧ q < dstReserve accs) := by
  constructor
  · intro amount_in reserve_in reserve_out fee_bps q _ _ hq
    unfold compute_constant_product_quote at hq
    by_cases hres : reserve_in > 0 ∧ reserve_out > 0
    · rw [if_pos hres] at hq
      obtain rfl : rawQuote amount_in reserve_in reserve_out fee_bps = q :=
        (Except.ok.injEq _ _).mp hq
      exact rawQuote_lt_reserve_out _ _ _ _ hres.1 hres.2
    · rw [if_neg hres] at hq
      exact absurd hq (by simp)
  · intro accs amount_in min_amount_out ts h
    obtain ⟨hin, hout, hts⟩ := swap_ok_shape accs h
    exact ⟨_, hts, rawQuote_lt_reserve_out _ _ _ _ hin hout⟩

/-- C10 witness: the concrete scenario's output 996 is below the
1_000_000-balance destination vault. -/
theorem C10_output_bounded_by_vault_witness : (996 : Nat) < 1000000 :=
  C10_output_bounded_by_vault.1 1000 1000000 1000000 30 996 (by decide)
    (by decide) rfl

/-- A call whose four account checks pass never returns
`InvalidAccount`: the only remaining errors are the quote's
`InvalidAmount` and the slippage `SlippageExceeded`. -/
lemma swap_valid_not_invalid_account (accs : SwapAccounts)
    {amount_in : Nat} (min_amount_out : Nat) (ha : 0 < amount_in)
    (hva : accs.vault_a.mint = accs.pool.mint_a)
    (hvb : accs.vault_b.mint = accs.pool.mint_b)
    (hdest : accs.user_destination.mint = outMint accs) :
    swap accs amount_in min_amount_out ≠ Except.error DexError.InvalidAccount := by
  rw [swap_of_valid accs min_amount_out ha hva hvb hdest]
  unfold compute_constant_product_quote
  by_cases hres : srcReserve accs > 0 ∧ dstReserve accs > 0
  · rw [if_pos hres]
    intro hcontra
    have h2 : (if rawQuote amount_in (srcReserve accs) (dstReserve accs)
          accs.pool.fee_bps ≥ min_amount_out then
        Except.ok
          ([{ src := AccountId.userSource, dst := srcVaultId accs,
              amount := amount_in },
            { src := dstVaultId accs, dst := AccountId.userDestination,
              amount := rawQuote amount_in (srcReserve accs) (dstReserve accs)
                accs.pool.fee_bps }] : List Transfer)
      else Except.error DexError.SlippageExceeded) =
        Except.error DexError.InvalidAccount := hcontra
    by_cases hs : rawQuote amount_in (srcReserve accs) (dstReserve accs)
        accs.pool.fee_bps ≥ min_amount_out
    · rw [if_pos hs] at h2
      exact absurd h2 (by simp)
    · rw [if_neg hs] at h2
      exact absurd h2 (by simp)
  · rw [if_neg hres]
    intro hcontra
    have h2 : (Except.error DexError.InvalidAmount :
        Except DexError (List Transfer)) =
        Except.error DexError.InvalidAccount := hcontra
    exact absurd h2 (by simp)

/-- C2: the trade direction is A→B exactly when the user source mint is
`mint_a`, any other source mint is processed as B→A (vault B becomes
the source side, the expected output mint becomes `mint_a`); a vault
mint mismatch or a destination mint differing from the inferred output
mint fails with `InvalidAccount`; a source holding neither mint is
caught by the destination check unless the destination holds `mint_a`,
in which case no `InvalidAccount` is raised. -/
theorem C2_direction_inference_and_checks (accs : SwapAccounts)
    (amount_in min_amount_out : Nat) (ha : 0 < amount_in) :
    (direction accs = true ↔ accs.user_source.mint = accs.pool.mint_a)
    ∧ (accs.user_source.mint ≠ accs.pool.mint_a →
        srcReserve accs = accs.vault_b.amount ∧
        dstReserve accs = accs.vault_a.amount ∧
        srcVaultId accs = AccountId.vaultB ∧
        dstVaultId accs = AccountId.vaultA ∧
        outMint accs = accs.pool.mint_a)
    ∧ (accs.vault_a.mint ≠ accs.pool.mint_a →
        swap accs amount_in min_amount_out = Except.error DexError.InvalidAccount)
    ∧ (accs.vault_a.mint = accs.pool.mint_a →
       accs.vault_b.mint ≠ accs.pool.mint_b →
        swap accs amount_in min_amount_out = Except.error DexError.InvalidAccount)
    ∧ (accs.vault_a.mint = accs.pool.mint_a →
       accs.vault_b.mint = accs.pool.mint_b →
       accs.user_destination.mint ≠ outMint accs →
        swap accs amount_in min_amount_out = Except.error DexError.InvalidAccount)
    ∧ (accs.user_source.mint ≠ accs.pool.mint_a →
       accs.user_source.mint ≠ accs.pool.mint_b →
       accs.vault_a.mint = accs.pool.mint_a →
       accs.vault_b.mint = accs.pool.mint_b →
       accs.user_destination.mint ≠ accs.pool.mint_a →
        swap accs amount_in min_amount_out = Except.error DexError.InvalidAccount)
    ∧ (accs.user_source.mint ≠ accs.pool.mint_a →
       accs.vault_a.mint = accs.pool.mint_a →
       accs.vault_b.mint = accs.pool.mint_b →
       accs.user_destination.mint = accs.pool.mint_a →
        swap accs amount_in min_amount_out ≠ Except.error DexError.InvalidAccount) := by
  refine ⟨by simp [direction], ?_, ?_, ?_, ?_, ?_, ?_⟩
  · intro hsrc
    have hdir : direction accs = false := by simp [direction, hsrc]
    exact ⟨by simp [srcReserve, hdir], by simp [dstReserve, hdir],
           by simp [srcVaultId, hdir], by simp [dstVaultId, hdir],
           by simp [outMint, hdir]⟩
  · intro h
    exact swap_bad_vault_a accs min_amount_out ha h
  · intro hva h
    exact swap_bad_vault_b accs min_amount_out ha hva h
  · intro hva hvb h
    exact swap_bad_dest accs min_amount_out ha hva hvb h
  · intro hsrc _ hva hvb hdest
    have hdir : direction accs = false := by simp [direction, hsrc]
    have hout : outMint accs = accs.pool.mint_a := by simp [outMint, hdir]
    exact swap_bad_dest accs min_amount_out ha hva hvb (by rw [hout]; exact hdest)
  · intro hsrc hva hvb hdest
    have hdir : direction accs = false := by simp [direction, hsrc]
    have hout : outMint accs = accs.pool.mint_a := by simp [outMint, hdir]
    exact swap_valid_not_invalid_account accs min_amount_out ha hva hvb
      (by rw [hout]; exact hdest)

/-- C2 witness: a source account of mint 3 (neither pool mint) against
the standard pool, with a destination of mint 2, is rejected as
`InvalidAccount`. -/
theorem C2_direction_inference_and_checks_witness :
    swap ({ wAccs with user_source := { mint := 3, amount := 1000000 } } :
        SwapAccounts) 1000 0 =
      Except.error DexError.InvalidAccount :=
  (C2_direction_inference_and_checks
      ({ wAccs with user_source := { mint := 3, amount := 1000000 } } :
        SwapAccounts) 1000 0
      (by decide)).2.2.2.2.2.1 (by decide) (by decide) rfl rfl (by decide)

/-- When the account checks pass and the quote evaluates to `out`,
`swap` reduces to the slippage decision on `out`. -/
lemma swap_valid_quote (accs : SwapAccounts) {amount_in out : Nat}
    (min_amount_out : Nat) (ha : 0 < amount_in)
    (hva : accs.vault_a.mint = accs.pool.mint_a)
    (hvb : accs.vault_b.mint = accs.pool.mint_b)
    (hdest : accs.user_destination.mint = outMint accs)
    (hq : compute_constant_product_quote amount_in (srcReserve accs)
        (dstReserve accs) accs.pool.fee_bps = Except.ok out) :
    swap accs amount_in min_amount_out =
      if out ≥ min_amount_out then
        Except.ok
          ([{ src := AccountId.userSource, dst := srcVaultId accs,
              amount := amount_in },
            { src := dstVaultId accs, dst := AccountId.userDestination,
              amount := out }] : List Transfer)
      else Except.error DexError.SlippageExceeded := by
  rw [swap_of_valid accs min_amount_out ha hva hvb hdest, hq]

/-- C4: for a call that reaches the slippage check with computed output
`out`, `min_amount_out = out + 1` fails with `SlippageExceeded` and no
transfer, any `min_amount_out ≤ out` passes, and the call fails with
`SlippageExceeded` exactly when `out < min_amount_out`. -/
theorem C4_slippage_exactness (accs : SwapAccounts) (amount_in out : Nat)
    (ha : 0 < amount_in)
    (hva : accs.vault_a.mint = accs.pool.mint_a)
    (hvb : accs.vault_b.mint = accs.pool.mint_b)
    (hdest : accs.user_destination.mint = outMint accs)
    (hq : compute_constant_product_quote amount_in (srcReserve accs)
        (dstReserve accs) accs.pool.fee_bps = Except.ok out) :
    swap accs amount_in (out + 1) = Except.error DexError.SlippageExceeded
    ∧ issuedTransfers accs amount_in (out + 1) = []
    ∧ (∀ m, m ≤ out → swap accs amount_in m =
        Except.ok
          [{ src := AccountId.userSource, dst := srcVaultId accs,
             amount := amount_in },
           { src := dstVaultId accs, dst := AccountId.userDestination,
             amount := out }])
    ∧ (∀ m, swap accs amount_in m = Except.error DexError.SlippageExceeded ↔
        out < m) := by
  have hfail : swap accs amount_in (out + 1) =
      Except.error DexError.SlippageExceeded := by
    rw [swap_valid_quote accs (out + 1) ha hva hvb hdest hq,
      if_neg (by omega)]
  refine ⟨hfail, ?_, ?_, ?_⟩
  · unfold issuedTransfers
    rw [hfail]
  · intro m hm
    rw [swap_valid_quote accs m ha hva hvb hdest hq, if_pos hm]
  · intro m
    constructor
    · intro h
      by_contra hlt
      rw [swap_valid_quote accs m ha hva hvb hdest hq,
        if_pos (by omega)] at h
      exact absurd h (by simp)
    · intro hlt
      rw [swap_valid_quote accs m ha hva hvb hdest hq, if_neg (by omega)]

/-- C4 witness: in the concrete scenario (output 996), asking for 997
fails with `SlippageExceeded` and asking for 996 succeeds. -/
theorem C4_slippage_exactness_witness :
    swap wAccs 1000 997 = Except.error DexError.SlippageExceeded
    ∧ swap wAccs 1000 996 =
        Except.ok
          [{ src := AccountId.userSource, dst := srcVaultId wAccs,
             amount := 1000 },
           { src := dstVaultId wAccs, dst := AccountId.userDestination,
             amount := 996 }] :=
  ⟨(C4_slippage_exactness wAccs 1000 996 (by decide) rfl rfl rfl rfl).1,
   (C4_slippage_exactness wAccs 1000 996 (by decide) rfl rfl rfl rfl).2.2.1 996
     (by decide)⟩

/-! ### C6: the fee invariant is in fact never checked -/

/-- Accounts of a pool whose stored fee is the degenerate 10_000 bps:
mints 1 and 2, both reserves positive, a well-formed A→B user pair. -/
def feeTenThousandAccs : SwapAccounts :=
  { pool := { authority := 0, mint_a := 1, mint_b := 2, vault_a := 10,
              vault_b := 11, fee_bps := 10000 },
    vault_a := { mint := 1, amount := 1000000 },
    vault_b := { mint := 2, amount := 1000000 },
    user_source := { mint := 1, amount := 5000 },
    user_destination := { mint := 2, amount := 0 } }

/-- C6 counterexample: a swap against a pool with `fee_bps = 10_000` is
not rejected — with `min_amount_out = 0` it completes, returning the
two transfers (the second for 0 tokens). -/
theorem C6_counterexample :
    feeTenThousandAccs.pool.fee_bps = 10000
    ∧ swap feeTenThousandAccs 1000 0 =
        Except.ok
          [{ src := AccountId.userSource, dst := AccountId.vaultA,
             amount := 1000 },
           { src := AccountId.vaultB, dst := AccountId.userDestination,
             amount := 0 }] := by
  exact ⟨rfl, rfl⟩

/-- C6 amended: no `fee_bps` bound is ever checked — `initialize_pool`
stores any fee verbatim, and a swap against a `fee_bps = 10_000` pool
with positive reserves computes a quote of 0 and succeeds whenever
`min_amount_out = 0`, failing only as `SlippageExceeded` when
`min_amount_out > 0`. -/
theorem C6_amended_fee_never_checked (accs : SwapAccounts)
    (amount_in min_amount_out : Nat) (ha : 0 < amount_in)
    (hfee : accs.pool.fee_bps = 10000)
    (hva : accs.vault_a.mint = accs.pool.mint_a)
    (hvb : accs.vault_b.mint = accs.pool.mint_b)
    (hdest : accs.user_destination.mint = outMint accs)
    (hrin : 0 < srcReserve accs) (hrout : 0 < dstReserve accs) :
    compute_constant_product_quote amount_in (srcReserve accs)
        (dstReserve accs) accs.pool.fee_bps = Except.ok 0
    ∧ swap accs amount_in 0 =
        Except.ok
          [{ src := AccountId.userSource, dst := srcVaultId accs,
             amount := amount_in },
           { src := dstVaultId accs, dst := AccountId.userDestination,
             amount := 0 }]
    ∧ (0 < min_amount_out →
        swap accs amount_in min_amount_out =
          Except.error DexError.SlippageExceeded)
    ∧ (∀ authority mint_a mint_b vault_a vault_b fee_bps : Nat,
        (init_pool authority mint_a mint_b vault_a vault_b fee_bps).fee_bps =
          fee_bps) := by
  have haf : after_fee amount_in accs.pool.fee_bps = 0 := by
    simp [after_fee, hfee, satMul]
  have hq : compute_constant_product_quote amount_in (srcReserve accs)
      (dstReserve accs) accs.pool.fee_bps = Except.ok 0 := by
    unfold compute_constant_product_quote
    rw [if_pos ⟨hrin, hrout⟩]
    simp [rawQuote, haf, satMul]
  refine ⟨hq, ?_, ?_, fun _ _ _ _ _ _ => rfl⟩
  · rw [swap_valid_quote accs 0 ha hva hvb hdest hq, if_pos (Nat.zero_le 0)]
  · intro hm
    rw [swap_valid_quote accs min_amount_out ha hva hvb hdest hq,
      if_neg (by omega)]

/-- C6 amended witness: the theorem applied to the concrete
`fee_bps = 10_000` accounts. -/
theorem C6_amended_fee_never_checked_witness :
    compute_constant_product_quote 1000 (srcReserve feeTenThousandAccs)
        (dstReserve feeTenThousandAccs) feeTenThousandAccs.pool.fee_bps =
      Except.ok 0
    ∧ swap feeTenThousandAccs 1000 1 = Except.error DexError.SlippageExceeded :=
  ⟨(C6_amended_fee_never_checked feeTenThousandAccs 1000 1 (by decide) rfl rfl
      rfl rfl (by decide) (by decide)).1,
   (C6_amended_fee_never_checked feeTenThousandAccs 1000 1 (by decide) rfl rfl
      rfl rfl (by decide) (by decide)).2.2.1 (by decide)⟩

/-! ### C7: the post-fee amount can be zero -/

/-- C7 counterexample: `amount_in = 1 > 0` and `fee_bps = 30 < 10_000`,
yet `amount_in_after_fee = floor(1 * 9970 / 10000) = 0`, not strictly
positive. -/
theorem C7_counterexample :
    (0 : Nat) < 1 ∧ (30 : Nat) < 10000 ∧ after_fee 1 30 = 0 := by
  decide

/-- C7 amended: `amount_in_after_fee` is strictly positive exactly when
`amount_in * (10_000 - fee_bps) ≥ 10_000` (so it can be zero for small
positive inputs); nonetheless the quote's denominator
`reserve_in saturating+ amount_in_after_fee` is strictly positive
whenever `reserve_in > 0` — which the quote's reserve check enforces —
so the division is never by zero. -/
theorem C7_amended_denominator_positive (amount_in fee_bps reserve_in : Nat) :
    (0 < after_fee amount_in fee_bps ↔
      10000 ≤ amount_in * (10000 - fee_bps))
    ∧ (0 < reserve_in →
        0 < satAdd reserve_in (after_fee amount_in fee_bps)) := by
  refine ⟨?_, satAdd_pos _⟩
  unfold after_fee satMul
  constructor
  · intro h
    have h1 : 1 * 10000 ≤ min (amount_in * (10000 - fee_bps)) U64_MAX :=
      (Nat.le_div_iff_mul_le (by norm_num)).mp h
    exact (le_min_iff.mp (by simpa using h1)).1
  · intro h
    have h1 : 10000 ≤ min (amount_in * (10000 - fee_bps)) U64_MAX :=
      le_min_iff.mpr ⟨h, by norm_num [U64_MAX]⟩
    exact (Nat.le_div_iff_mul_le (by norm_num)).mpr (by simpa using h1)

/-- C7 amended witness: at `amount_in = 2`, `fee_bps = 0`,
`reserve_in = 5`, the fee-adjusted amount is positive and so is the
denominator. -/
theorem C7_amended_denominator_positive_witness :
    (0 < after_fee 2 0 ↔ 10000 ≤ 2 * (10000 - 0))
    ∧ 0 < satAdd 5 (after_fee 2 0) :=
  ⟨(C7_amended_denominator_positive 2 0 5).1,
   (C7_amended_denominator_positive 2 0 5).2 (by decide)⟩

/-! ### C8: saturation breaks quote monotonicity -/

/-- C8 counterexample: with `reserve_in = 1`,
`reserve_out = 18_446_744_073_709` and `fee_bps = 0` fixed, raising
`amount_in` from 1_000_000 to 1_000_001 pushes the quote numerator into
saturation and the computed output drops from 18_446_725_626_983 to
18_446_707_180_295 — the quote is not non-decreasing in `amount_in`. -/
theorem C8_counterexample :
    compute_constant_product_quote 1000000 1 18446744073709 0 =
      Except.ok 18446725626983
    ∧ compute_constant_product_quote 1000001 1 18446744073709 0 =
      Except.ok 18446707180295
    ∧ (18446707180295 : Nat) < 18446725626983 :=
  ⟨rfl, rfl, by decide⟩

/-- C8 amended: the quote is non-decreasing in `amount_in` on the
region where the two saturating multiplications do not saturate
(the saturating addition in the denominator may still saturate). -/
theorem C8_monotone_without_saturation
    (a1 a2 reserve_in reserve_out fee_bps : Nat)
    (hin : 0 < reserve_in) (hfee : fee_bps < 10000) (h12 : a1 ≤ a2)
    (hm1 : a2 * (10000 - fee_bps) ≤ U64_MAX)
    (hm2 : after_fee a2 fee_bps * reserve_out ≤ U64_MAX) :
    rawQuote a1 reserve_in reserve_out fee_bps ≤
      rawQuote a2 reserve_in reserve_out fee_bps := by
  have hxy : after_fee a1 fee_bps ≤ after_fee a2 fee_bps :=
    after_fee_mono fee_bps h12
  set x := after_fee a1 fee_bps with hxdef
  set y := after_fee a2 fee_bps with hydef
  have hnum1 : satMul x reserve_out = x * reserve_out := by
    unfold satMul
    exact min_eq_left (le_trans (Nat.mul_le_mul_right _ hxy) hm2)
  have hnum2 : satMul y reserve_out = y * reserve_out := by
    unfold satMul
    exact min_eq_left hm2
  unfold rawQuote
  rw [← hxdef, ← hydef, hnum1, hnum2]
  apply div_le_div_cross (satAdd_pos x hin) (satAdd_pos y hin)
  by_cases hx : reserve_in + x ≤ U64_MAX
  · have hax : satAdd reserve_in x = reserve_in + x := by
      unfold satAdd
      exact min_eq_left hx
    have hay : satAdd reserve_in y ≤ reserve_in + y := by
      unfold satAdd
      exact min_le_left _ _
    rw [hax]
    calc x * reserve_out * satAdd reserve_in y
        ≤ x * reserve_out * (reserve_in + y) := Nat.mul_le_mul_left _ hay
      _ = x * reserve_out * reserve_in + x * reserve_out * y := by ring
      _ ≤ y * reserve_out * reserve_in + x * reserve_out * y :=
          Nat.add_le_add_right
            (Nat.mul_le_mul_right _ (Nat.mul_le_mul_right _ hxy)) _
      _ = y * reserve_out * (reserve_in + x) := by ring
  · have hax : satAdd reserve_in x = U64_MAX := by
      unfold satAdd
      exact min_eq_right (by omega)
    have hay : satAdd reserve_in y = U64_MAX := by
      unfold satAdd
      exact min_eq_right (by omega)
    rw [hax, hay]
    exact Nat.mul_le_mul_right _ (Nat.mul_le_mul_right _ hxy)

/-- C8 amended witness: doubling a small trade against the concrete
pool does not decrease the output. -/
theorem C8_monotone_without_saturation_witness :
    rawQuote 1000 1000000 1000000 30 ≤ rawQuote 2000 1000000 1000000 30 :=
  C8_monotone_without_saturation 1000 2000 1000000 1000000 30 (by decide)
    (by decide) (by decide) (by decide) (by decide)

/-! ### C9: saturation can shrink the pool product -/

/-- C9 counterexample: at `amount_in = reserve_in = u64::MAX`,
`reserve_out = 10_001`, `fee_bps = 1`, the quote succeeds with
output 1, yet the post-trade product
`(reserve_in + amount_in_after_fee) * (reserve_out - output)` is
strictly below the pre-trade product `reserve_in * reserve_out`. -/
theorem C9_counterexample :
    (0 : Nat) < 18446744073709551615 ∧ (0 : Nat) < 10001 ∧ (1 : Nat) < 10000
    ∧ compute_constant_product_quote 18446744073709551615
        18446744073709551615 10001 1 = Except.ok 1
    ∧ (18446744073709551615 + after_fee 18446744073709551615 1) *
        (10001 - 1) < 18446744073709551615 * 10001 :=
  ⟨by decide, by decide, by decide, rfl, by decide⟩

/-- C9 amended: whenever the quote's saturating multiplication and
addition do not saturate, the post-trade product
`(reserve_in + amount_in_after_fee) * (reserve_out - output)` is at
least the pre-trade product `reserve_in * reserve_out` (for any fee,
the only loss being integer rounding, which favours the pool). -/
theorem C9_product_without_saturation
    (amount_in reserve_in reserve_out fee_bps : Nat)
    (hin : 0 < reserve_in) (hout : 0 < reserve_out)
    (hm2 : after_fee amount_in fee_bps * reserve_out ≤ U64_MAX)
    (hadd : reserve_in + after_fee amount_in fee_bps ≤ U64_MAX) :
    reserve_in * reserve_out ≤
      (reserve_in + after_fee amount_in fee_bps) *
        (reserve_out - rawQuote amount_in reserve_in reserve_out fee_bps) := by
  have hsat1 : satMul (after_fee amount_in fee_bps) reserve_out =
      after_fee amount_in fee_bps * reserve_out := by
    unfold satMul
    exact min_eq_left hm2
  have hsat2 : satAdd reserve_in (after_fee amount_in fee_bps) =
      reserve_in + after_fee amount_in fee_bps := by
    unfold satAdd
    exact min_eq_left hadd
  have hql : rawQuote amount_in reserve_in reserve_out fee_bps *
      (reserve_in + after_fee amount_in fee_bps) ≤
      after_fee amount_in fee_bps * reserve_out := by
    have h1 := rawQuote_mul_le amount_in reserve_in reserve_out fee_bps
    rw [hsat1, hsat2] at h1
    exact h1
  set x := after_fee amount_in fee_bps
  set q := rawQuote amount_in reserve_in reserve_out fee_bps
  have hsub : (reserve_in + x) * (reserve_out - q) =
      (reserve_in + x) * reserve_out - (reserve_in + x) * q :=
    Nat.mul_sub ..
  rw [hsub]
  have hexp : (reserve_in + x) * reserve_out =
      reserve_in * reserve_out + x * reserve_out := by ring
  rw [hexp]
  have h3 : (reserve_in + x) * q ≤ x * reserve_out := by
    rw [mul_comm]
    exact hql
  omega

/-- C9 amended witness: the concrete scenario's product does not
decrease. -/
theorem C9_product_without_saturation_witness :
    (1000000 : Nat) * 1000000 ≤
      (1000000 + after_fee 1000 30) *
        (1000000 - rawQuote 1000 1000000 1000000 30) :=
  C9_product_without_saturation 1000 1000000 1000000 30 (by decide)
    (by decide) (by decide) (by decide)
